import Mathlib

/-!
Shallow embedding of the analytics capture/drain pipeline (`analytics.go`):
the `AnalyticsRecord` data model, `RedisAnalyticsHandler.RecordHit`,
`CSVPurger.PurgeCache` / `StartPurgeLoop` and `MongoPurger.Connect` /
`PurgeCache` / `StartPurgeLoop`.

External collaborators are modelled as explicit parameters:
- the msgpack codec (`msgpack.Marshal` / `msgpack.Unmarshal`) as an
  encode outcome respectively a decode function `String → Option AnalyticsRecord`;
- UUID generation (`uuid.NewV4`) as an `Option String` (the generated
  canonical string, `none` when generation failed and the returned pointer
  is nil);
- file-write and bulk-insert outcomes as Boolean oracles.

The staging store (`RedisStorageManager`, whose implementation lives outside
this file's source) is modelled from the spec as an association list with the
`put` / `getAll` / `deleteMany` contract.
-/

namespace Analytics

/-- Go `time.Month` is an integer type with `January = 1`; we carry it as `Int`. -/
abbrev GoMonth := Int

/-- The twelve long month names used by Go `time.Month.String`. -/
def longMonthNames : List String :=
  ["January", "February", "March", "April", "May", "June",
   "July", "August", "September", "October", "November", "December"]

/-- Embedding of Go `time.Month.String`: the long name for 1..12, otherwise
`%!Month(n)` where `n` is the month converted through `uint64` (two's-complement
wrap for negative values, as Go computes `uint64(m)`). -/
def monthString (m : GoMonth) : String :=
  if 1 ≤ m ∧ m ≤ 12 then
    longMonthNames.getD (m - 1).toNat ""
  else
    "%!Month(" ++ toString ((m % (18446744073709551616 : Int)).toNat) ++ ")"

/-- `AnalyticsRecord` from `analytics.go`: one captured request. Go `int` and
`int64` fields are carried as `Int` (no arithmetic is performed on them, only
decimal formatting); `TimeStamp` (`time.Time`) is an abstract instant. -/
structure AnalyticsRecord where
  Method        : String
  Path          : String
  ContentLength : Int
  UserAgent     : String
  Day           : Int
  Month         : GoMonth
  Year          : Int
  Hour          : Int
  ResponseCode  : Int
  APIKey        : String
  TimeStamp     : Int
  APIVersion    : String
  APIName       : String
  ApiId         : String
  OrgId         : String
deriving DecidableEq, Repr

/-- `AnalyticsError` from `analytics.go`: the error `RecordHit` returns when
encoding fails. -/
structure AnalyticsError where
deriving DecidableEq, Repr

/-- Embedding of `AnalyticsError.Error()`. -/
def AnalyticsError.message (_ : AnalyticsError) : String :=
  "Recording request failed!"

/-- Modelled from the spec: the Staging Store (`RedisStorageManager`, not part
of this source file) with contract `put(key, value, ttl)` /
`getAll() -> mapping` / `deleteMany(keys)`, modelled as an association list;
`getAll` returns the list itself. -/
abbrev StagingStore := List (String × String)

/-- Modelled from the spec: `deleteMany(keys)` of the Staging Store removes
exactly the entries whose key is among `keys`, leaving every other entry in
place. This is `RedisStorageManager.DeleteKeys`. -/
def deleteKeys (keys : List String) (store : StagingStore) : StagingStore :=
  store.filter (fun kv => decide (kv.1 ∉ keys))

/-- The staging key built by `RecordHit`:
`fmt.Sprintf("%d%d%d%d-%s", Year, Month, Day, Hour, u5.String())`
(`%d` prints `time.Month` as its underlying integer). -/
def keyName (r : AnalyticsRecord) (uuidStr : String) : String :=
  toString r.Year ++ toString r.Month ++ toString r.Day ++ toString r.Hour
    ++ "-" ++ uuidStr

/-- Embedding of `RedisAnalyticsHandler.RecordHit`.

`marshalRes` is the outcome of `msgpack.Marshal(thisRecord)` (`.ok encoded` or
`.error msg`); `uuidRes` is the outcome of `uuid.NewV4()` with its error
discarded, as in `u5, _ := uuid.NewV4()` — `none` means generation failed and
`u5` is a nil pointer.

The result is `none` when the call panics: `keyName` interpolates
`u5.String()` before the marshal error is even inspected, and `String` on a
nil `*UUID` is a nil-pointer dereference. Otherwise the result carries the
returned error (`some AnalyticsError` on marshal failure, `none` = nil error
on success) together with the list of staging-store writes performed, each a
`(key, value, ttl)` triple as passed to `Store.SetKey`. -/
def recordHit (marshalRes : Except String String) (uuidRes : Option String)
    (r : AnalyticsRecord) :
    Option (Option AnalyticsError × List (String × String × Int)) :=
  match uuidRes with
  | none => none
  | some u =>
    let kn := keyName r u
    match marshalRes with
    | .error _ => some (some ⟨⟩, [])
    | .ok encoded => some (none, [(kn, encoded, 0)])

/-! ### CSVPurger -/

/-- The header row written by `CSVPurger.PurgeCache`. -/
def csvHeaders : List String :=
  ["METHOD", "PATH", "SIZE", "UA", "DAY", "MONTH", "YEAR", "HOUR",
   "RESPONSE", "APINAME", "APIVERSION"]

/-- The CSV data row `CSVPurger.PurgeCache` builds from a decoded record
(`toWrite` in the source): method, path, content length, user agent, day,
month name, year, hour, response code, API name, API version. -/
def recordToRow (d : AnalyticsRecord) : List String :=
  [d.Method, d.Path, toString d.ContentLength, d.UserAgent,
   toString d.Day, monthString d.Month, toString d.Year, toString d.Hour,
   toString d.ResponseCode, d.APIName, d.APIVersion]

/-- The output file name `CSVPurger.PurgeCache` computes:
`fmt.Sprintf("%s%d-%s-%d-%d-%d.csv", CSVDir, year, monthName, day, hour, minute)`
— note the configured directory string is concatenated directly, with no path
separator inserted. -/
def csvFileName (csvDir : String) (year : Int) (month : GoMonth)
    (day hour minute : Int) : String :=
  csvDir ++ toString year ++ "-" ++ monthString month ++ "-" ++ toString day
    ++ "-" ++ toString hour ++ "-" ++ toString minute ++ ".csv"

/-- The flat-file path as the spec words it: the configured directory, a path
separator, then `<year>-<monthName>-<day>-<hour>-<minute>.csv`. -/
def csvFileNameSpec (csvDir : String) (year : Int) (month : GoMonth)
    (day hour minute : Int) : String :=
  csvDir ++ "/" ++ toString year ++ "-" ++ monthString month ++ "-"
    ++ toString day ++ "-" ++ toString hour ++ "-" ++ toString minute ++ ".csv"

/-- The `for k, v := range KeyValueMap` loop of `CSVPurger.PurgeCache`,
iterating over the snapshot in order. For each entry it appends the key to
`keys`; on decode success it builds the row and calls `writer.Write` on it
(`rowOk` is that call's outcome; a failed row write is logged and skipped),
on decode failure the entry is only logged. Returns
`(keys, rows handed to the writer, rows actually written)`. -/
def csvLoop (dec : String → Option AnalyticsRecord)
    (rowOk : List String → Bool) :
    List (String × String) → List String × List (List String) × List (List String)
  | [] => ([], [], [])
  | (k, v) :: rest =>
    let (ks, att, wr) := csvLoop dec rowOk rest
    match dec v with
    | none => (k :: ks, att, wr)
    | some d =>
      let row := recordToRow d
      (k :: ks, row :: att, if rowOk row then row :: wr else wr)

/-- Result of one `CSVPurger.PurgeCache` cycle. `deleted` is the argument of
the `Store.DeleteKeys` call, `none` when no such call was made; `fileRows` is
the content of the output file (header first); `attemptedRows` lists the data
rows handed to `writer.Write`; `store` is the staging store afterwards. -/
structure CSVPurgeResult where
  fileName      : String
  headerWritten : Bool
  attemptedRows : List (List String)
  fileRows      : List (List String)
  deleted       : Option (List String)
  store         : StagingStore
deriving DecidableEq, Repr

/-- Embedding of `CSVPurger.PurgeCache`. `headerWriteOk` is the outcome of
`writer.Write(headers)`: on failure the error is logged and the cycle ends
without ever reading the snapshot or deleting anything. On success the
snapshot `store` (= `Store.GetKeysAndValues()`) is walked by `csvLoop`, the
file is flushed, and `Store.DeleteKeys` is called on all snapshot keys.
`inserted` are the entries concurrent `RecordHit` calls add to the store
between the snapshot read and the deletion; the store at deletion time is
`store ++ inserted`. -/
def csvPurgeCache (dec : String → Option AnalyticsRecord)
    (headerWriteOk : Bool) (rowOk : List String → Bool)
    (csvDir : String) (year : Int) (month : GoMonth) (day hour minute : Int)
    (inserted store : StagingStore) : CSVPurgeResult :=
  let fname := csvFileName csvDir year month day hour minute
  if headerWriteOk then
    let lp := csvLoop dec rowOk store
    { fileName := fname, headerWritten := true, attemptedRows := lp.2.1,
      fileRows := csvHeaders :: lp.2.2, deleted := some lp.1,
      store := deleteKeys lp.1 (store ++ inserted) }
  else
    { fileName := fname, headerWritten := false, attemptedRows := [],
      fileRows := [], deleted := none, store := store ++ inserted }

/-- Call-stack depth of `CSVPurger.StartPurgeLoop` after `n` completed
sleep-then-drain cycles: the source is
`time.Sleep(...); c.PurgeCache(); c.StartPurgeLoop(nextCount)` — every cycle
ends in a self-call, and since the invoking frame only returns after the
self-call returns (Go performs no tail-call elimination and the function has
no loop construct), each completed cycle leaves one more live frame. -/
def csvStartPurgeLoopDepth : Nat → Nat
  | 0 => 0
  | n + 1 => csvStartPurgeLoopDepth n + 1

/-! ### MongoPurger -/

/-- A Mongo session handle, abstracted to the dialled URL. -/
abbrev MgoSession := String

/-- One element of the variadic `keys ...interface{}` slice that
`MongoPurger.PurgeCache` hands to `analyticsCollection.Insert`: either a
decoded record, or the slot's zero value (`nil` interface) left in place when
`msgpack.Unmarshal` failed for that entry. -/
inductive MongoDoc where
  | nilDoc
  | record (r : AnalyticsRecord)
deriving DecidableEq, Repr

/-- The `for k, v := range KeyValueMap` loop of `MongoPurger.PurgeCache`: for
the `i`-th entry it sets `keyNames[i] = k`, then on decode success sets
`keys[i]` to the decoded record, on decode failure logs and leaves `keys[i]`
as the zero-value `nil` interface. Returns `(keyNames, keys)`. -/
def mongoLoop (dec : String → Option AnalyticsRecord) :
    List (String × String) → List String × List MongoDoc
  | [] => ([], [])
  | (k, v) :: rest =>
    let (ns, ds) := mongoLoop dec rest
    match dec v with
    | none => (k :: ns, MongoDoc.nilDoc :: ds)
    | some d => (k :: ns, MongoDoc.record d :: ds)

/-- Result of the connected branch of one `MongoPurger.PurgeCache` cycle.
`docs` is the slice handed to `Insert` (`none` when the snapshot was empty and
no insert was attempted); `deleted` is the argument of `Store.DeleteKeys`,
`none` when not called; `store` is the staging store afterwards. -/
structure MongoPurgeResult where
  docs    : Option (List MongoDoc)
  deleted : Option (List String)
  store   : StagingStore
deriving DecidableEq, Repr

/-- The `else` (connected) branch of `MongoPurger.PurgeCache`: snapshot the
store; if non-empty, build `keyNames` and `keys` with `mongoLoop` and bulk
`Insert` them (`insertOk` is that call's outcome); on insert success delete
all of `keyNames`, on failure log and delete nothing. `inserted` are entries
added concurrently between snapshot and deletion, as in `csvPurgeCache`. -/
def mongoPurgeBody (dec : String → Option AnalyticsRecord) (insertOk : Bool)
    (inserted store : StagingStore) : MongoPurgeResult :=
  if store.length > 0 then
    let lp := mongoLoop dec store
    if insertOk then
      { docs := some lp.2, deleted := some lp.1,
        store := deleteKeys lp.1 (store ++ inserted) }
    else
      { docs := some lp.2, deleted := none, store := store ++ inserted }
  else
    { docs := none, deleted := none, store := store ++ inserted }

/-- Embedding of `MongoPurger.PurgeCache` including the lazy-connect path.
`session` is the current `dbSession` (`none` = nil). When it is nil the cycle
logs, runs `Connect` — whose `mgo.Dial` outcome is `dialRes` — and calls
itself again. `Connect` reacts to a dial failure with `log.Panic`, modelled
as the overall result `none` (process-fatal, nothing is returned); on dial
success `dbSession` is the new session, so the self-call takes the connected
branch, embedded here by unfolding that single recursive step. The connected
branch runs `mongoPurgeBody` and keeps its session. -/
def mongoPurgeCache (dialRes : Option MgoSession)
    (dec : String → Option AnalyticsRecord) (insertOk : Bool)
    (inserted store : StagingStore) :
    Option MgoSession → Option (MongoPurgeResult × MgoSession)
  | none =>
    match dialRes with
    | none => none
    | some s => some (mongoPurgeBody dec insertOk inserted store, s)
  | some s => some (mongoPurgeBody dec insertOk inserted store, s)

/-- Call-stack depth of `MongoPurger.StartPurgeLoop` after `n` completed
cycles; the source has the same `sleep; PurgeCache(); self-call` shape as
`CSVPurger.StartPurgeLoop`. -/
def mongoStartPurgeLoopDepth : Nat → Nat
  | 0 => 0
  | n + 1 => mongoStartPurgeLoopDepth n + 1

/-! ### Concrete sample data, used to evaluate the theorems on closed inputs -/

/-- A concrete captured request. -/
def sampleRecord1 : AnalyticsRecord :=
  { Method := "GET", Path := "/widgets", ContentLength := 120,
    UserAgent := "ua-one", Day := 2, Month := 1, Year := 2014, Hour := 3,
    ResponseCode := 200, APIKey := "key1", TimeStamp := 0,
    APIVersion := "v1", APIName := "widgets", ApiId := "a1", OrgId := "o1" }

/-- A second concrete captured request. -/
def sampleRecord2 : AnalyticsRecord :=
  { Method := "POST", Path := "/orders", ContentLength := -1,
    UserAgent := "ua-two", Day := 2, Month := 1, Year := 2014, Hour := 3,
    ResponseCode := 404, APIKey := "key2", TimeStamp := 0,
    APIVersion := "v2", APIName := "orders", ApiId := "a2", OrgId := "o2" }

/-- A third concrete captured request. -/
def sampleRecord3 : AnalyticsRecord :=
  { Method := "PUT", Path := "/items", ContentLength := 7,
    UserAgent := "ua-three", Day := 2, Month := 1, Year := 2014, Hour := 4,
    ResponseCode := 500, APIKey := "key3", TimeStamp := 0,
    APIVersion := "v1", APIName := "items", ApiId := "a3", OrgId := "o3" }

/-- A concrete decode function: payloads `"p1"`, `"p2"`, `"p3"` decode to the
three sample records, everything else fails to decode. -/
def sampleDec (v : String) : Option AnalyticsRecord :=
  if v = "p1" then some sampleRecord1
  else if v = "p2" then some sampleRecord2
  else if v = "p3" then some sampleRecord3
  else none

/-- A staging-store snapshot of three decodable entries. -/
def sampleStore3 : StagingStore :=
  [("k1", "p1"), ("k2", "p2"), ("k3", "p3")]

/-- A staging-store snapshot with one decodable and one undecodable entry. -/
def sampleStoreMixed : StagingStore :=
  [("k1", "p1"), ("kbad", "garbage")]

/-! ## Helper lemmas -/

/-- The keys collected by the CSV drain loop are exactly the snapshot keys,
in order. -/
theorem csvLoop_keys (dec : String → Option AnalyticsRecord)
    (rowOk : List String → Bool) :
    ∀ store : List (String × String),
      (csvLoop dec rowOk store).1 = store.map Prod.fst
  | [] => rfl
  | (k, v) :: rest => by
    have ih := csvLoop_keys dec rowOk rest
    cases hv : dec v <;> simp [csvLoop, hv, ih]

/-- The rows the CSV drain loop hands to the writer are exactly the rows of
the entries that decoded successfully, in order. -/
theorem csvLoop_attempted (dec : String → Option AnalyticsRecord)
    (rowOk : List String → Bool) :
    ∀ store : List (String × String),
      (csvLoop dec rowOk store).2.1
        = store.filterMap (fun kv => (dec kv.2).map recordToRow)
  | [] => rfl
  | (k, v) :: rest => by
    have ih := csvLoop_attempted dec rowOk rest
    cases hv : dec v <;> simp [csvLoop, hv, ih]

/-- When every row write succeeds, the rows in the file are the rows handed to
the writer. -/
theorem csvLoop_written_of_rowOk (dec : String → Option AnalyticsRecord)
    (rowOk : List String → Bool) (hrow : ∀ row, rowOk row = true) :
    ∀ store : List (String × String),
      (csvLoop dec rowOk store).2.2 = (csvLoop dec rowOk store).2.1
  | [] => rfl
  | (k, v) :: rest => by
    have ih := csvLoop_written_of_rowOk dec rowOk hrow rest
    cases hv : dec v <;> simp [csvLoop, hv, ih, hrow]

/-- The key names collected by the Mongo drain loop are exactly the snapshot
keys, in order. -/
theorem mongoLoop_keys (dec : String → Option AnalyticsRecord) :
    ∀ store : List (String × String),
      (mongoLoop dec store).1 = store.map Prod.fst
  | [] => rfl
  | (k, v) :: rest => by
    have ih := mongoLoop_keys dec rest
    cases hv : dec v <;> simp [mongoLoop, hv, ih]

/-- The documents the Mongo drain loop builds: positionally one per snapshot
entry, a decoded record where decoding succeeded and the zero-value `nil`
interface where it failed. -/
theorem mongoLoop_docs (dec : String → Option AnalyticsRecord) :
    ∀ store : List (String × String),
      (mongoLoop dec store).2
        = store.map (fun kv =>
            match dec kv.2 with
            | some d => MongoDoc.record d
            | none => MongoDoc.nilDoc)
  | [] => rfl
  | (k, v) :: rest => by
    have ih := mongoLoop_docs dec rest
    cases hv : dec v <;> simp [mongoLoop, hv, ih]

/-- `deleteMany` removes every occurrence of each listed key. -/
theorem deleteKeys_not_mem (keys : List String) (store : StagingStore)
    (k : String) (hk : k ∈ keys) :
    k ∉ (deleteKeys keys store).map Prod.fst := by
  intro hmem
  rcases List.mem_map.mp hmem with ⟨kv, hkv, rfl⟩
  have hfilter := (List.mem_filter.mp hkv).2
  rw [decide_eq_true_eq] at hfilter
  exact hfilter hk

/-- `deleteMany` keeps every entry whose key is not listed. -/
theorem mem_deleteKeys (keys : List String) (store : StagingStore)
    (kv : String × String) (h1 : kv ∈ store) (h2 : kv.1 ∉ keys) :
    kv ∈ deleteKeys keys store :=
  List.mem_filter.mpr ⟨h1, by simpa using h2⟩

/-- A key not listed for deletion stays present in the store. -/
theorem mem_map_fst_deleteKeys (keys : List String) (store : StagingStore)
    (k : String) (hk : k ∉ keys) (hmem : k ∈ store.map Prod.fst) :
    k ∈ (deleteKeys keys store).map Prod.fst := by
  rcases List.mem_map.mp hmem with ⟨kv, hkv, rfl⟩
  exact List.mem_map.mpr ⟨kv, mem_deleteKeys keys store kv hkv hk, rfl⟩

/-! ## Claim theorems -/

/-- C2: when (UUID generation succeeds and) encoding a record fails,
`RecordHit` returns the `AnalyticsError` and performs no staging-store write;
when encoding succeeds it performs exactly one staging-store write — the
staging key mapped to the encoded payload, with no expiration — and returns
success (a nil error). -/
theorem recordHit_encode_contract (r : AnalyticsRecord) (u e enc : String) :
    recordHit (Except.error e) (some u) r = some (some ⟨⟩, [])
    ∧ recordHit (Except.ok enc) (some u) r
        = some (none, [(keyName r u, enc, 0)]) :=
  ⟨rfl, rfl⟩

/-- C10: `RecordHit` discards the error of `uuid.NewV4()`; when generation
fails the nil UUID pointer is dereferenced while building the staging key and
the call panics (modelled `none`) instead of returning a capture error — for
any marshal outcome, since the key is built before the marshal error is
checked. When generation succeeds the call completes normally. -/
theorem recordHit_nil_uuid (marshalRes : Except String String)
    (r : AnalyticsRecord) :
    recordHit marshalRes none r = none
    ∧ ∀ u : String, (recordHit marshalRes (some u) r).isSome = true := by
  refine ⟨rfl, fun u => ?_⟩
  cases marshalRes <;> rfl

/-- C4 counterexample: the claim that running more sleep-then-drain cycles
does not grow call-stack state is false — two completed cycles hold strictly
more live frames than one, for both sinks. -/
theorem startPurgeLoop_iterative_false :
    ¬ (csvStartPurgeLoopDepth 2 ≤ csvStartPurgeLoopDepth 1
       ∧ mongoStartPurgeLoopDepth 2 ≤ mongoStartPurgeLoopDepth 1) := by
  decide

/-- C4 amended: for both sinks, `StartPurgeLoop` is unbounded self-recursion,
not an iterative loop: every completed sleep-then-drain cycle leaves one more
live call-stack frame, so after `n` cycles the call depth is `n` and grows
without bound. -/
theorem startPurgeLoop_selfRecursive (n : Nat) :
    csvStartPurgeLoopDepth n = n ∧ mongoStartPurgeLoopDepth n = n := by
  induction n with
  | zero => exact ⟨rfl, rfl⟩
  | succ n ih =>
    exact ⟨by simp [csvStartPurgeLoopDepth, ih.1],
           by simp [mongoStartPurgeLoopDepth, ih.2]⟩

/-- C7 counterexample: the output file path is not
`<dir>/<year>-<monthName>-<day>-<hour>-<minute>.csv`: for directory `"out"`
and timestamp 2014-January-2 3:04 the code produces
`out2014-January-2-3-4.csv`, not `out/2014-January-2-3-4.csv` — no path
separator is inserted after the configured directory. -/
theorem csvFileName_spec_path_false :
    csvFileName "out" 2014 1 2 3 4 ≠ csvFileNameSpec "out" 2014 1 2 3 4 := by
  decide

/-- C7 amended: the flat-file cycle names its output by concatenating the
configured directory string directly with
`<year>-<monthName>-<day>-<hour>-<minute>.csv`; the path has the spec's
`<dir>/<name>.csv` shape exactly when the configured directory string itself
ends with the path separator. -/
theorem csvPurge_fileName_with_separator (dec : String → Option AnalyticsRecord)
    (headerWriteOk : Bool) (rowOk : List String → Bool) (dir : String)
    (y : Int) (mo : GoMonth) (d h mi : Int) (inserted store : StagingStore) :
    (csvPurgeCache dec headerWriteOk rowOk (dir ++ "/") y mo d h mi
        inserted store).fileName
      = csvFileNameSpec dir y mo d h mi := by
  cases headerWriteOk <;>
    simp [csvPurgeCache, csvFileName, csvFileNameSpec, String.append_assoc]

/-- C8: the staging key is the record's year, month, day and hour followed by
a hyphen and the UUID suffix; since a canonical UUID string is 36 characters
long, any two captures with distinct UUID suffixes get distinct staging keys,
whatever their records — in particular also within the same hour bucket. -/
theorem keyName_distinct_of_uuid_distinct (r1 r2 : AnalyticsRecord)
    (u1 u2 : String) (h1 : u1.length = 36) (h2 : u2.length = 36)
    (hne : u1 ≠ u2) : keyName r1 u1 ≠ keyName r2 u2 := by
  intro h
  apply hne
  have hd := congrArg (fun s => s.data.reverse) h
  simp only [keyName, String.data_append, List.reverse_append,
    List.append_assoc] at hd
  have hlen : u1.data.reverse.length = u2.data.reverse.length := by
    have e1 : u1.data.length = 36 := h1
    have e2 : u2.data.length = 36 := h2
    simp [e1, e2]
  have := (List.append_inj hd hlen).1
  have hdata : u1.data = u2.data := List.reverse_injective this
  exact String.ext hdata

/-- When every entry of the snapshot decodes, the rows handed to the writer
are the rows of those decoded records, in order. -/
theorem filterMap_all_some (dec : String → Option AnalyticsRecord) :
    ∀ (store : StagingStore) (recs : List AnalyticsRecord),
      store.map (fun kv => dec kv.2) = recs.map some →
      store.filterMap (fun kv => (dec kv.2).map recordToRow)
        = recs.map recordToRow
  | [], [], _ => rfl
  | [], _ :: _, h => by simp at h
  | _ :: _, [], h => by simp at h
  | kv :: rest, r :: rs, h => by
    simp only [List.map_cons, List.cons.injEq] at h
    obtain ⟨h1, h2⟩ := h
    simp [List.filterMap_cons, h1, filterMap_all_some dec rest rs h2]

/-- C1: deletion is atomic over the snapshot, for both sinks. On batch-write
success (header write for the flat file, bulk insert for the document store)
the deletion call covers every snapshot key — decode failures included — and
none of those keys is in the staging store afterwards; on batch-write failure
no deletion call is made and the store still holds every snapshotted entry
(plus whatever was inserted concurrently), unchanged for retry. -/
theorem drain_deletion_atomic (dec : String → Option AnalyticsRecord)
    (rowOk : List String → Bool) (dir : String) (y : Int) (mo : GoMonth)
    (d h mi : Int) (inserted store : StagingStore) :
    ((∀ k, k ∈ store.map Prod.fst →
        k ∉ (csvPurgeCache dec true rowOk dir y mo d h mi
              inserted store).store.map Prod.fst)
     ∧ (csvPurgeCache dec true rowOk dir y mo d h mi
          inserted store).deleted = some (store.map Prod.fst)
     ∧ (csvPurgeCache dec false rowOk dir y mo d h mi
          inserted store).deleted = none
     ∧ (csvPurgeCache dec false rowOk dir y mo d h mi
          inserted store).store = store ++ inserted)
    ∧ ((∀ k, k ∈ store.map Prod.fst →
        k ∉ (mongoPurgeBody dec true inserted store).store.map Prod.fst)
     ∧ (store ≠ [] →
        (mongoPurgeBody dec true inserted store).deleted
          = some (store.map Prod.fst))
     ∧ (mongoPurgeBody dec false inserted store).deleted = none
     ∧ (mongoPurgeBody dec false inserted store).store = store ++ inserted) := by
  refine ⟨⟨?_, ?_, ?_, ?_⟩, ?_, ?_, ?_, ?_⟩
  · intro k hk
    simp only [csvPurgeCache, if_true, csvLoop_keys]
    exact deleteKeys_not_mem _ _ _ hk
  · simp [csvPurgeCache, csvLoop_keys]
  · simp [csvPurgeCache]
  · simp [csvPurgeCache]
  · intro k hk
    by_cases hs : store.length > 0
    · simp only [mongoPurgeBody, if_pos hs, if_true, mongoLoop_keys]
      exact deleteKeys_not_mem _ _ _ hk
    · have : store = [] := by simpa using hs
      simp [this] at hk
  · intro hne
    have hs : store.length > 0 := List.length_pos.mpr hne
    simp [mongoPurgeBody, hs, mongoLoop_keys]
  · by_cases hs : store.length > 0 <;> simp [mongoPurgeBody, hs]
  · by_cases hs : store.length > 0 <;> simp [mongoPurgeBody, hs]

/-- C1 witness: on the mixed two-entry snapshot, a successful flat-file cycle
leaves the key of the undecodable entry deleted, and a failed bulk insert
leaves the staging store unchanged with no deletion call. -/
theorem drain_deletion_atomic_witness :
    ("kbad" ∈ sampleStoreMixed.map Prod.fst
      ∧ "kbad" ∉ (csvPurgeCache sampleDec true (fun _ => true) "out/"
            2014 1 2 3 4 [] sampleStoreMixed).store.map Prod.fst)
    ∧ (sampleStoreMixed ≠ []
      ∧ (mongoPurgeBody sampleDec true [] sampleStoreMixed).deleted
          = some (sampleStoreMixed.map Prod.fst))
    ∧ (mongoPurgeBody sampleDec false [] sampleStoreMixed).store
        = sampleStoreMixed ++ [] :=
  ⟨⟨by decide,
    (drain_deletion_atomic sampleDec (fun _ => true) "out/" 2014 1 2 3 4 []
      sampleStoreMixed).1.1 "kbad" (by decide)⟩,
   ⟨by decide,
    (drain_deletion_atomic sampleDec (fun _ => true) "out/" 2014 1 2 3 4 []
      sampleStoreMixed).2.2.1 (by decide)⟩,
   (drain_deletion_atomic sampleDec (fun _ => true) "out/" 2014 1 2 3 4 []
      sampleStoreMixed).2.2.2.2⟩

/-- C3: a drain cycle deletes only keys of its snapshot — whatever it ends up
deleting is a subset of the snapshot keys — and a fresh key inserted after
the snapshot was taken is still in the staging store when the cycle
completes, whether the batch write succeeds or fails, for both sinks. -/
theorem drain_snapshot_isolation (dec : String → Option AnalyticsRecord)
    (rowOk : List String → Bool) (dir : String) (y : Int) (mo : GoMonth)
    (d h mi : Int) (inserted store : StagingStore) (k : String)
    (hins : k ∈ inserted.map Prod.fst) (hfresh : k ∉ store.map Prod.fst) :
    (∀ (headerWriteOk : Bool) (ks : List String),
        (csvPurgeCache dec headerWriteOk rowOk dir y mo d h mi
          inserted store).deleted = some ks → ks ⊆ store.map Prod.fst)
    ∧ (∀ headerWriteOk : Bool,
        k ∈ (csvPurgeCache dec headerWriteOk rowOk dir y mo d h mi
          inserted store).store.map Prod.fst)
    ∧ (∀ (insertOk : Bool) (ks : List String),
        (mongoPurgeBody dec insertOk inserted store).deleted = some ks →
          ks ⊆ store.map Prod.fst)
    ∧ (∀ insertOk : Bool,
        k ∈ (mongoPurgeBody dec insertOk inserted store).store.map Prod.fst) := by
  have hmem : k ∈ (store ++ inserted).map Prod.fst := by
    simp only [List.map_append, List.mem_append]
    exact Or.inr hins
  refine ⟨?_, ?_, ?_, ?_⟩
  · intro hwk ks hks
    cases hwk
    · simp [csvPurgeCache] at hks
    · simp only [csvPurgeCache, if_true, csvLoop_keys,
        Option.some.injEq] at hks
      exact hks ▸ List.Subset.refl _
  · intro hwk
    cases hwk
    · simpa [csvPurgeCache] using hmem
    · simp only [csvPurgeCache, if_true, csvLoop_keys]
      exact mem_map_fst_deleteKeys _ _ _ hfresh hmem
  · intro insertOk ks hks
    by_cases hs : store.length > 0
    · cases insertOk
      · simp [mongoPurgeBody, hs] at hks
      · simp only [mongoPurgeBody, hs, if_true, mongoLoop_keys,
          Option.some.injEq] at hks
        exact hks.symm ▸ List.Subset.refl _
    · simp [mongoPurgeBody, hs] at hks
  · intro insertOk
    by_cases hs : store.length > 0
    · cases insertOk
      · simpa [mongoPurgeBody, hs] using hmem
      · simp only [mongoPurgeBody, hs, if_true, mongoLoop_keys]
        exact mem_map_fst_deleteKeys _ _ _ hfresh hmem
    · cases insertOk <;> simpa [mongoPurgeBody, hs] using hmem

/-- C3 witness: a key inserted while the cycle over the three-record snapshot
runs survives both a successful flat-file cycle and a successful bulk
insert. -/
theorem drain_snapshot_isolation_witness :
    ("n1" ∈ ([("n1", "px")] : StagingStore).map Prod.fst)
    ∧ ("n1" ∉ sampleStore3.map Prod.fst)
    ∧ "n1" ∈ (csvPurgeCache sampleDec true (fun _ => true) "out/"
        2014 1 2 3 4 [("n1", "px")] sampleStore3).store.map Prod.fst
    ∧ "n1" ∈ (mongoPurgeBody sampleDec true [("n1", "px")]
        sampleStore3).store.map Prod.fst :=
  ⟨by decide, by decide,
   (drain_snapshot_isolation sampleDec (fun _ => true) "out/" 2014 1 2 3 4
      [("n1", "px")] sampleStore3 "n1" (by decide) (by decide)).2.1 true,
   (drain_snapshot_isolation sampleDec (fun _ => true) "out/" 2014 1 2 3 4
      [("n1", "px")] sampleStore3 "n1" (by decide) (by decide)).2.2.2 true⟩

/-- C5 counterexample: in a document-store cycle over the one-entry snapshot
`[("k1", "bad")]` whose value fails to decode, the slice handed to the bulk
insert is `[nil]` — the failed entry is not excluded but left as the
zero-value `nil` interface in its slot — while the claim requires the batch
to be exactly the successfully decoded entries, i.e. empty. -/
theorem mongo_batch_nil_placeholder :
    (mongoPurgeBody (fun _ => none) true [] [("k1", "bad")]).docs
      = some [MongoDoc.nilDoc]
    ∧ (some [MongoDoc.nilDoc] : Option (List MongoDoc)) ≠ some [] := by
  exact ⟨rfl, by decide⟩

/-- C5 amended: in the flat-file sink, every entry whose value fails to
decode is excluded from the rows handed to the writer, while its key remains
in the deletion set. In the document-store sink the failed entry's key also
remains in the deletion set, but the entry is not excluded from the batch:
the bulk-insert slice keeps one element per snapshot entry, with the
zero-value `nil` interface left in the slot of each entry that failed to
decode. -/
theorem drain_batch_contents (dec : String → Option AnalyticsRecord)
    (rowOk : List String → Bool) (dir : String) (y : Int) (mo : GoMonth)
    (d h mi : Int) (inserted store : StagingStore) :
    (csvPurgeCache dec true rowOk dir y mo d h mi
        inserted store).attemptedRows
      = store.filterMap (fun kv => (dec kv.2).map recordToRow)
    ∧ (csvPurgeCache dec true rowOk dir y mo d h mi
        inserted store).deleted = some (store.map Prod.fst)
    ∧ (∀ insertOk : Bool, store ≠ [] →
        (mongoPurgeBody dec insertOk inserted store).docs
          = some (store.map (fun kv =>
              match dec kv.2 with
              | some d => MongoDoc.record d
              | none => MongoDoc.nilDoc)))
    ∧ (store ≠ [] →
        (mongoPurgeBody dec true inserted store).deleted
          = some (store.map Prod.fst)) := by
  refine ⟨?_, ?_, ?_, ?_⟩
  · simp [csvPurgeCache, csvLoop_attempted]
  · simp [csvPurgeCache, csvLoop_keys]
  · intro insertOk hne
    have hs : store.length > 0 := List.length_pos.mpr hne
    cases insertOk <;> simp [mongoPurgeBody, hs, mongoLoop_docs]
  · intro hne
    have hs : store.length > 0 := List.length_pos.mpr hne
    simp [mongoPurgeBody, hs, mongoLoop_keys]

/-- C5 amended witness: on the mixed snapshot, the flat-file cycle hands the
writer only the row of the decodable entry but deletes both keys, and the
document-store cycle hands the bulk insert a record plus a `nil`
placeholder. -/
theorem drain_batch_contents_witness :
    sampleStoreMixed ≠ []
    ∧ (csvPurgeCache sampleDec true (fun _ => true) "out/" 2014 1 2 3 4 []
        sampleStoreMixed).attemptedRows
      = sampleStoreMixed.filterMap (fun kv => (sampleDec kv.2).map recordToRow)
    ∧ (mongoPurgeBody sampleDec true [] sampleStoreMixed).docs
      = some (sampleStoreMixed.map (fun kv =>
          match sampleDec kv.2 with
          | some d => MongoDoc.record d
          | none => MongoDoc.nilDoc)) :=
  ⟨by decide,
   (drain_batch_contents sampleDec (fun _ => true) "out/" 2014 1 2 3 4 []
      sampleStoreMixed).1,
   (drain_batch_contents sampleDec (fun _ => true) "out/" 2014 1 2 3 4 []
      sampleStoreMixed).2.2.1 true (by decide)⟩

/-- C6: in a flat-file cycle over a snapshot whose values all decode (and
whose row writes succeed), the output file is the header row
`METHOD,PATH,SIZE,UA,DAY,MONTH,YEAR,HOUR,RESPONSE,APINAME,APIVERSION`
followed by exactly one data row per snapshot record, each row being that
record's method, path, content length, user agent, day, month, year, hour,
response code, API name and API version, in that order. -/
theorem csv_allDecoded_file (dec : String → Option AnalyticsRecord)
    (dir : String) (y : Int) (mo : GoMonth) (d h mi : Int)
    (inserted store : StagingStore) (recs : List AnalyticsRecord)
    (hdec : store.map (fun kv => dec kv.2) = recs.map some) :
    (csvPurgeCache dec true (fun _ => true) dir y mo d h mi
        inserted store).fileRows
      = ["METHOD", "PATH", "SIZE", "UA", "DAY", "MONTH", "YEAR", "HOUR",
         "RESPONSE", "APINAME", "APIVERSION"]
        :: recs.map (fun rec =>
            [rec.Method, rec.Path, toString rec.ContentLength, rec.UserAgent,
             toString rec.Day, monthString rec.Month, toString rec.Year,
             toString rec.Hour, toString rec.ResponseCode, rec.APIName,
             rec.APIVersion])
    ∧ recs.length = store.length := by
  constructor
  · simp only [csvPurgeCache, if_true]
    rw [csvLoop_written_of_rowOk dec _ (fun _ => rfl), csvLoop_attempted,
      filterMap_all_some dec store recs hdec]
    rfl
  · have := congrArg List.length hdec
    simpa using this.symm

/-- C6 witness: the three-record snapshot produces a file of the header row
plus exactly the three sample records' rows. -/
theorem csv_allDecoded_file_witness :
    sampleStore3.map (fun kv => sampleDec kv.2)
      = [sampleRecord1, sampleRecord2, sampleRecord3].map some
    ∧ (csvPurgeCache sampleDec true (fun _ => true) "out/" 2014 1 2 3 4 []
        sampleStore3).fileRows
      = ["METHOD", "PATH", "SIZE", "UA", "DAY", "MONTH", "YEAR", "HOUR",
         "RESPONSE", "APINAME", "APIVERSION"]
        :: [sampleRecord1, sampleRecord2, sampleRecord3].map (fun rec =>
            [rec.Method, rec.Path, toString rec.ContentLength, rec.UserAgent,
             toString rec.Day, monthString rec.Month, toString rec.Year,
             toString rec.Hour, toString rec.ResponseCode, rec.APIName,
             rec.APIVersion]) :=
  ⟨by decide,
   (csv_allDecoded_file sampleDec "out/" 2014 1 2 3 4 [] sampleStore3
      [sampleRecord1, sampleRecord2, sampleRecord3] (by decide)).1⟩

/-- C9: for the document-store sink, a cycle that finds no connection
establishes one and then behaves exactly like an already-connected cycle
(the cycle is retried once); when establishing the connection fails the
whole cycle is process-fatal (`log.Panic`, modelled as no result at all)
rather than a retryable return; and a failed bulk insert is non-fatal: the
cycle completes, keeps its session, deletes no keys and leaves the staging
store unchanged. -/
theorem mongo_connect_contract (dialRes : Option MgoSession) (s : MgoSession)
    (dec : String → Option AnalyticsRecord) (insertOk : Bool)
    (inserted store : StagingStore) :
    mongoPurgeCache none dec insertOk inserted store none = none
    ∧ mongoPurgeCache (some s) dec insertOk inserted store none
        = mongoPurgeCache dialRes dec insertOk inserted store (some s)
    ∧ ∃ res : MongoPurgeResult,
        mongoPurgeCache dialRes dec false inserted store (some s)
          = some (res, s)
        ∧ res.deleted = none ∧ res.store = store ++ inserted := by
  refine ⟨rfl, rfl, mongoPurgeBody dec false inserted store, rfl, ?_, ?_⟩
  · by_cases hs : store.length > 0 <;> simp [mongoPurgeBody, hs]
  · by_cases hs : store.length > 0 <;> simp [mongoPurgeBody, hs]

/-- C8 witness: two concrete records in the same hour bucket with two
concrete distinct 36-character UUID strings get distinct staging keys. -/
theorem keyName_distinct_witness :
    ("00000000-0000-4000-8000-000000000000" : String).length = 36
    ∧ ("00000000-0000-4000-8000-000000000001" : String).length = 36
    ∧ keyName sampleRecord1 "00000000-0000-4000-8000-000000000000"
        ≠ keyName sampleRecord2 "00000000-0000-4000-8000-000000000001" :=
  ⟨by decide, by decide,
   keyName_distinct_of_uuid_distinct sampleRecord1 sampleRecord2
     "00000000-0000-4000-8000-000000000000"
     "00000000-0000-4000-8000-000000000001"
     (by decide) (by decide) (by decide)⟩

end Analytics
